import Mathlib

/-!
Verification of the rollup-starter session-registry subsystem and its setup
scripts.

The session-registry module (`sb-session-registry`) ships only documentation in
this repository (its README describes the data model, roles, predicates and
messages); the module body itself is not present.  Its state machine is
therefore modelled from the specification.  The two setup scripts
(`scripts/setup/add-signer.ts` and `scripts/setup/generate-keys.ts`) are
present and their pure cores are embedded directly from the source.
-/

/-! ## Session-registry data model -/

/-- Wallet / account addresses, abstracted as naturals. -/
abbrev Address := Nat

/-- Modelled from the spec: one `SessionRecord` per wallet (`expiry_ts` is a
u64 timestamp with `0` the "no session" sentinel; `bypass` makes the wallet
always present and active). -/
structure SessionRecord where
  expiry_ts : Nat
  bypass : Bool
  deriving DecidableEq

/-- Modelled from the spec: the `RegistryConfig` singleton (owner, manager,
global enforcement toggle, expiry grace offset). -/
structure RegistryConfig where
  owner : Address
  manager : Address
  enforcement_enabled : Bool
  expiry_offset : Nat
  deriving DecidableEq

/-- Modelled from the spec: full registry state — config singleton, the
signer allow-list, and the per-wallet session records (association list). -/
structure RegistryState where
  config : RegistryConfig
  signers : List Address
  sessions : List (Address × SessionRecord)
  deriving DecidableEq

/-- The three distinguished roles of the authorization gate. -/
inductive Role where
  | owner
  | manager
  | sessionSigner
  deriving DecidableEq

/-- The nine externally callable operations of the module. -/
inductive CallMessage where
  | SetManager (new_manager : Address)
  | SetEnforcementEnabled (enabled : Bool)
  | SetExpiryOffset (new_offset : Nat)
  | SetSessionSigner (signer : Address) (allowed : Bool)
  | SetBypass (wallet : Address) (bypass : Bool)
  | SetSession (wallet : Address) (expires_at : Nat)
  | SetSessionBatch (wallets : List Address) (expiries : List Nat)
  | EnforceSessionActive (wallet : Address)
  | EnforceSessionPresent (wallet : Address)
  deriving DecidableEq

/-- Events emitted by successful mutations. -/
inductive Event where
  | SessionSet (wallet : Address) (expiry_ts : Nat)
  | BypassSet (wallet : Address) (bypass : Bool)
  | ManagerSet (old_manager new_manager : Address)
  | EnforcementEnabledSet (enabled : Bool)
  | ExpiryOffsetUpdated (old_offset new_offset : Nat)
  | SessionSignerSet (signer : Address) (allowed : Bool)
  deriving DecidableEq

/-- The error taxonomy of the module. -/
inductive RegistryError where
  | UnauthorizedCaller (required_role : Role) (operation : String)
  | MismatchedBatchLength
  | SessionNotPresent (wallet : Address)
  | SessionNotActive (wallet : Address)
  deriving DecidableEq

/-! ## Storage helpers -/

/-- Largest representable u64 time value. -/
def U64MAX : Nat := 2 ^ 64 - 1

/-- Modelled from the spec: saturating u64 addition — clamps to `U64MAX`
instead of wrapping. -/
def satAdd (a b : Nat) : Nat := min (a + b) U64MAX

/-- Look a wallet's record up in the session store. -/
def lookupRecord (l : List (Address × SessionRecord)) (w : Address) : Option SessionRecord :=
  (l.find? (fun p => p.1 == w)).map (·.2)

/-- Remove a wallet's record from the session store. -/
def eraseRecord (w : Address) (l : List (Address × SessionRecord)) :
    List (Address × SessionRecord) :=
  l.filter (fun p => p.1 != w)

/-- Insert-or-replace a wallet's record in the session store. -/
def setRecord (w : Address) (r : SessionRecord) (l : List (Address × SessionRecord)) :
    List (Address × SessionRecord) :=
  (w, r) :: eraseRecord w l

/-- A wallet's record, with absence read as `{expiry_ts := 0, bypass := false}`. -/
def getRecord (st : RegistryState) (w : Address) : SessionRecord :=
  (lookupRecord st.sessions w).getD ⟨0, false⟩

/-! ## Session predicates -/

/-- Modelled from the spec: `is_session_present` — `bypass == true OR
expiry_ts != 0`, ignoring expiry entirely. -/
def is_session_present (st : RegistryState) (w : Address) : Bool :=
  (getRecord st w).bypass || ((getRecord st w).expiry_ts != 0)

/-- Modelled from the spec: `is_session_active`.  A bypassed wallet is always
active; otherwise a session must exist (`expiry_ts != 0`, the reserved
"no session" sentinel) and `satAdd expiry_ts expiry_offset > now`.  The
`expiry_ts != 0` guard is forced by the spec's testable properties (§8: a
wallet with no prior record is never active, for every `now` and offset) and
its glossary ("Active: a session is present and not expired ... or
bypassed"); the bare formula of §4.2 would wrongly call an absent record
active whenever `expiry_offset > now`. -/
def is_session_active (st : RegistryState) (w : Address) (now : Nat) : Bool :=
  (getRecord st w).bypass ||
    ((getRecord st w).expiry_ts != 0 &&
      decide (satAdd (getRecord st w).expiry_ts st.config.expiry_offset > now))

/-- The literal active formula as §4.2 words it, for comparison with
`is_session_active`: `bypass == true OR (expiry_ts + expiry_offset) > now`
with saturating addition, with no existence guard. -/
def activeFormulaLiteral (r : SessionRecord) (expiry_offset now : Nat) : Bool :=
  r.bypass || decide (satAdd r.expiry_ts expiry_offset > now)

/-- Modelled from the spec: `enforce_session_present`.  Succeeds
unconditionally when enforcement is disabled; otherwise fails with
`SessionNotPresent` when the predicate is false.  Read-only. -/
def enforcePresent (st : RegistryState) (w : Address) : Except RegistryError Unit :=
  if st.config.enforcement_enabled then
    if is_session_present st w then .ok () else .error (.SessionNotPresent w)
  else .ok ()

/-- Modelled from the spec: `enforce_session_active`, the `Active` analogue
of `enforcePresent`. -/
def enforceActive (st : RegistryState) (w : Address) (now : Nat) :
    Except RegistryError Unit :=
  if st.config.enforcement_enabled then
    if is_session_active st w now then .ok () else .error (.SessionNotActive w)
  else .ok ()

/-! ## Mutations -/

/-- Modelled from the spec: the state transition of one `SetSession` call.
`expires_at == 0` deletes the record (clearing both fields); otherwise the
expiry is upserted, preserving an existing `bypass` (default `false`).  The
emitted `SessionSet` event is returned alongside the new state. -/
def setSessionCore (st : RegistryState) (w : Address) (e : Nat) :
    RegistryState × Event :=
  if e = 0 then
    ({ st with sessions := eraseRecord w st.sessions }, .SessionSet w 0)
  else
    let b := ((lookupRecord st.sessions w).map (·.bypass)).getD false
    ({ st with sessions := setRecord w ⟨e, b⟩ st.sessions }, .SessionSet w e)

/-- Modelled from the spec: `SetSessionBatch` applies `SetSession` semantics
index-by-index, in order, over the zipped wallet/expiry pairs. -/
def applyBatch : RegistryState → List (Address × Nat) → RegistryState × List Event
  | st, [] => (st, [])
  | st, p :: rest =>
    let q := setSessionCore st p.1 p.2
    let r := applyBatch q.1 rest
    (r.1, q.2 :: r.2)

/-- Add a signer to the allow-list (idempotent). -/
def addSigner (s : Address) (l : List Address) : List Address :=
  if s ∈ l then l else s :: l

/-- Remove a signer from the allow-list (idempotent). -/
def removeSigner (s : Address) (l : List Address) : List Address :=
  l.filter (fun a => a != s)

/-! ## Authorization gate and dispatcher -/

/-- The single role required by each mutation; `none` for the two
enforcement operations, which anyone may call. -/
def requiredRole : CallMessage → Option Role
  | .SetManager _ => some .owner
  | .SetEnforcementEnabled _ => some .owner
  | .SetExpiryOffset _ => some .owner
  | .SetSessionSigner _ _ => some .manager
  | .SetBypass _ _ => some .manager
  | .SetSession _ _ => some .sessionSigner
  | .SetSessionBatch _ _ => some .sessionSigner
  | .EnforceSessionActive _ => none
  | .EnforceSessionPresent _ => none

/-- Operation name carried inside `UnauthorizedCaller`. -/
def opName : CallMessage → String
  | .SetManager _ => "SetManager"
  | .SetEnforcementEnabled _ => "SetEnforcementEnabled"
  | .SetExpiryOffset _ => "SetExpiryOffset"
  | .SetSessionSigner _ _ => "SetSessionSigner"
  | .SetBypass _ _ => "SetBypass"
  | .SetSession _ _ => "SetSession"
  | .SetSessionBatch _ _ => "SetSessionBatch"
  | .EnforceSessionActive _ => "EnforceSessionActive"
  | .EnforceSessionPresent _ => "EnforceSessionPresent"

/-- Whether `sender` holds a role in state `st`: a plain equality check for
owner/manager and set membership for session signers — no implicit
fallback between roles. -/
def holdsRole (st : RegistryState) (sender : Address) : Role → Bool
  | .owner => sender == st.config.owner
  | .manager => sender == st.config.manager
  | .sessionSigner => st.signers.contains sender

/-- Modelled from the spec: the state transition of each mutation, after the
authorization gate has passed.  Only `SetSessionBatch` can still fail
(structurally, on mismatched lengths), and it checks that before touching
any record.  Enforcement messages never reach this function. -/
def applyMutation (st : RegistryState) : CallMessage →
    Except RegistryError (RegistryState × List Event)
  | .SetManager nm =>
    .ok ({ st with config := { st.config with manager := nm } },
      [.ManagerSet st.config.manager nm])
  | .SetEnforcementEnabled e =>
    .ok ({ st with config := { st.config with enforcement_enabled := e } },
      [.EnforcementEnabledSet e])
  | .SetExpiryOffset o =>
    .ok ({ st with config := { st.config with expiry_offset := o } },
      [.ExpiryOffsetUpdated st.config.expiry_offset o])
  | .SetSessionSigner s allowed =>
    .ok ({ st with signers := if allowed then addSigner s st.signers
                              else removeSigner s st.signers },
      [.SessionSignerSet s allowed])
  | .SetBypass w b =>
    .ok ({ st with sessions := setRecord w ⟨(getRecord st w).expiry_ts, b⟩ st.sessions },
      [.BypassSet w b])
  | .SetSession w e =>
    let q := setSessionCore st w e
    .ok (q.1, [q.2])
  | .SetSessionBatch ws es =>
    if ws.length = es.length then .ok (applyBatch st (ws.zip es))
    else .error .MismatchedBatchLength
  | .EnforceSessionActive _ => .ok (st, [])
  | .EnforceSessionPresent _ => .ok (st, [])

/-- Modelled from the spec: the module's `call::execute` dispatcher.  It
resolves the caller's required role first and fails atomically with
`UnauthorizedCaller` when the caller does not hold it; enforcement
operations are open to anyone and are read-only. -/
def execute (st : RegistryState) (sender : Address) (now : Nat)
    (msg : CallMessage) : Except RegistryError (RegistryState × List Event) :=
  match requiredRole msg with
  | some role =>
    if holdsRole st sender role then applyMutation st msg
    else .error (.UnauthorizedCaller role (opName msg))
  | none =>
    match msg with
    | .EnforceSessionActive w => (enforceActive st w now).map fun _ => (st, [])
    | .EnforceSessionPresent w => (enforcePresent st w).map fun _ => (st, [])
    | _ => .ok (st, [])

/-- The state observable after a call: the new state on success, the
untouched previous state on failure (transactional semantics). -/
def finalState (st : RegistryState) (sender : Address) (now : Nat)
    (msg : CallMessage) : RegistryState :=
  match execute st sender now msg with
  | .ok (st', _) => st'
  | .error _ => st

/-! ## The `add-signer.ts` setup script (embedded from the source)

`scripts/setup/add-signer.ts` parses CLI arguments, falls back to a
generated-keys file for the manager key and signer address, normalizes them,
and submits a `session_registry.set_session_signer` call message. -/

/-- The `set_session_signer` payload built by the script: exactly a signer
address and an allowed flag, nested under `session_registry` — there is no
per-application field. -/
structure SetSessionSignerPayload where
  signer : String
  allowed : Bool
  deriving DecidableEq

/-- The record returned by the script's `parseArgs`. -/
structure ParsedArgs where
  managerKey : String
  signerAddress : String
  rpcUrl : String
  keysFile : String
  revoke : Bool
  deriving DecidableEq

/-- The initial values of `parseArgs`'s locals. -/
def initialArgs : ParsedArgs :=
  { managerKey := "", signerAddress := "", rpcUrl := "http://127.0.0.1:12346",
    keysFile := "", revoke := false }

/-- The relevant fields of `generated-keys.json` (`loadKeysFromFile`). -/
structure GeneratedKeys where
  managerPrivateKey : String
  signerAddress : String
  deriving DecidableEq

/-- The argument loop of `parseArgs`: a value-taking flag consumes the next
token only when it is present and truthy (non-empty); `--revoke` sets the
flag.  An empty value leaves the flag without effect and the empty token is
skipped on the following iteration (it matches no flag), which the
`rest2` recursion reflects directly. -/
def parseLoop (acc : ParsedArgs) : List String → ParsedArgs
  | [] => acc
  | a :: rest =>
    if a = "--manager-key" then
      match rest with
      | v :: rest2 =>
        if v ≠ "" then parseLoop { acc with managerKey := v } rest2
        else parseLoop acc rest2
      | [] => acc
    else if a = "--signer-address" then
      match rest with
      | v :: rest2 =>
        if v ≠ "" then parseLoop { acc with signerAddress := v } rest2
        else parseLoop acc rest2
      | [] => acc
    else if a = "--rpc-url" then
      match rest with
      | v :: rest2 =>
        if v ≠ "" then parseLoop { acc with rpcUrl := v } rest2
        else parseLoop acc rest2
      | [] => acc
    else if a = "--keys-file" then
      match rest with
      | v :: rest2 =>
        if v ≠ "" then parseLoop { acc with keysFile := v } rest2
        else parseLoop acc rest2
      | [] => acc
    else if a = "--revoke" then parseLoop { acc with revoke := true } rest
    else parseLoop acc rest

/-- The file fallback of `parseArgs`: when either key is missing from the
CLI and the keys file loaded, the missing ones are taken from the file. -/
def resolveKeys (p : ParsedArgs) (fileKeys : Option GeneratedKeys) : ParsedArgs :=
  if p.managerKey = "" ∨ p.signerAddress = "" then
    match fileKeys with
    | some k =>
      { p with
        managerKey := if p.managerKey = "" then k.managerPrivateKey else p.managerKey,
        signerAddress := if p.signerAddress = "" then k.signerAddress else p.signerAddress }
    | none => p
  else p

/-- Character-list ASCII lower-casing, the behavior of JavaScript's
`toLowerCase` on the addresses and keys this script handles. -/
def jsToLower (s : String) : String :=
  String.mk (s.data.map Char.toLower)

/-- Whether a string starts with the two characters `0x`. -/
def has0x (s : String) : Bool :=
  match s.data with
  | c1 :: c2 :: _ => c1 == Char.ofNat 48 && c2 == Char.ofNat 120
  | _ => false

/-- Prepend `0x` unless the string already starts with it, as the script's
address normalization does. -/
def ensure0x (s : String) : String :=
  if has0x s then s else "0x" ++ s

/-- Drop a leading `0x` from the manager key, as the script does. -/
def strip0x (s : String) : String :=
  if has0x s then String.mk (s.data.drop 2) else s

/-- `parseArgs` end to end: loop over the args, fall back to the keys file,
exit (`none`) when the manager key or the signer address is still missing,
then normalize both. -/
def parseArgs (args : List String) (fileKeys : Option GeneratedKeys) :
    Option ParsedArgs :=
  let p := resolveKeys (parseLoop initialArgs args) fileKeys
  if p.managerKey = "" ∨ p.signerAddress = "" then none
  else some { p with
    signerAddress := ensure0x p.signerAddress,
    managerKey := strip0x p.managerKey }

/-- The call message `main` builds: `signer` is the parsed address
lower-cased, `allowed` is the negation of the revoke flag. -/
def mkCallMessage (p : ParsedArgs) : SetSessionSignerPayload :=
  { signer := jsToLower p.signerAddress, allowed := !p.revoke }

/-! ## The `generate-keys.ts` genesis update (embedded from the source) -/

/-- The `session_registry` genesis object; `srExtra` stands for any other
keys it may carry, which `updateGenesis` never touches. -/
structure SRGenesis where
  owner : Option String
  manager : Option String
  srExtra : List (String × String)
  deriving DecidableEq

/-- The `gas_token_config` genesis object; `address_and_balances` is the
balance table (absent field modelled as `none`), `gasExtra` its other keys. -/
structure GasTokenConfig where
  address_and_balances : Option (List (String × String))
  gasExtra : List (String × String)
  deriving DecidableEq

/-- The `bank` genesis object. -/
structure BankGenesis where
  gas_token_config : Option GasTokenConfig
  bankExtra : List (String × String)
  deriving DecidableEq

/-- The top-level genesis document; `genesisExtra` stands for every other
top-level key. -/
structure Genesis where
  session_registry : Option SRGenesis
  bank : Option BankGenesis
  genesisExtra : List (String × String)
  deriving DecidableEq

/-- Case-insensitive membership of an address among the first components of
the balance table, matching the script's lower-cased `Set` lookup. -/
def hasAddress (l : List (String × String)) (addr : String) : Bool :=
  l.any (fun p => jsToLower p.1 == jsToLower addr)

/-- The initial balance `updateGenesis` grants, `10^16` tokens. -/
def initialBalance : String := "10000000000000000"

/-- `updateGenesis` from `generate-keys.ts`: set `session_registry.owner`
and `.manager` (creating the object if absent), then — only when the
`bank.gas_token_config.address_and_balances` chain is present — append a
balance entry for the owner and for the manager unless the address already
occurs case-insensitively in the pre-existing table. -/
def updateGenesis (g : Genesis) (ownerAddress managerAddress : String) : Genesis :=
  let sr0 := g.session_registry.getD { owner := none, manager := none, srExtra := [] }
  let sr := { sr0 with owner := some ownerAddress, manager := some managerAddress }
  let bank :=
    match g.bank with
    | none => none
    | some b =>
      match b.gas_token_config with
      | none => some b
      | some gtc =>
        match gtc.address_and_balances with
        | none => some b
        | some l =>
          let l1 := if hasAddress l ownerAddress then l
                    else l ++ [(ownerAddress, initialBalance)]
          let l2 := if hasAddress l managerAddress then l1
                    else l1 ++ [(managerAddress, initialBalance)]
          some { b with gas_token_config := some { gtc with address_and_balances := some l2 } }
  { g with session_registry := some sr, bank := bank }

/-! ## Concrete fixtures used to instantiate the theorems -/

/-- A sample configuration: owner `10`, manager `11`, enforcement on,
grace offset `5`. -/
def sampleConfig : RegistryConfig :=
  { owner := 10, manager := 11, enforcement_enabled := true, expiry_offset := 5 }

/-- A sample registry state: one allow-listed signer `12` and one session
record for wallet `3`. -/
def sampleState : RegistryState :=
  { config := sampleConfig, signers := [12], sessions := [(3, ⟨100, false⟩)] }

/-- A state whose global enforcement switch is off. -/
def offState : RegistryState :=
  { config := { owner := 10, manager := 11, enforcement_enabled := false, expiry_offset := 5 },
    signers := [], sessions := [] }

/-- An empty-session state with a positive expiry offset, where the literal
§4.2 formula and the modelled active predicate disagree. -/
def cexState : RegistryState :=
  { config := { owner := 1, manager := 2, enforcement_enabled := true, expiry_offset := 1 },
    signers := [], sessions := [] }

/-- A state holding a session whose expiry is the largest u64 value. -/
def bigState : RegistryState :=
  { config := { owner := 1, manager := 2, enforcement_enabled := true, expiry_offset := 7 },
    signers := [], sessions := [(4, ⟨U64MAX, false⟩)] }

/-- A concrete CLI argument vector for `add-signer.ts`. -/
def argsWit : List String :=
  ["--manager-key", "abc", "--signer-address", "0XAB", "--revoke"]

/-- What `parseArgs` produces on `argsWit` with no keys file. -/
def pWit : ParsedArgs :=
  { managerKey := "abc", signerAddress := "0x0XAB",
    rpcUrl := "http://127.0.0.1:12346", keysFile := "", revoke := true }

/-! ## Helper lemmas -/

theorem lookup_eraseRecord (w : Address) (l : List (Address × SessionRecord)) :
    lookupRecord (eraseRecord w l) w = none := by
  induction l with
  | nil => rfl
  | cons p rest ih =>
    by_cases hp : p.1 = w
    · simp [eraseRecord, lookupRecord, List.filter_cons, hp] at ih ⊢
    · simp [eraseRecord, lookupRecord, List.filter_cons, List.find?_cons, hp] at ih ⊢

theorem lookup_setRecord_self (w : Address) (r : SessionRecord)
    (l : List (Address × SessionRecord)) :
    lookupRecord (setRecord w r l) w = some r := by
  simp [setRecord, lookupRecord, List.find?_cons]

theorem setSessionCore_config (st : RegistryState) (w : Address) (e : Nat) :
    ((setSessionCore st w e).1).config = st.config := by
  unfold setSessionCore
  split <;> rfl

theorem setSessionCore_signers (st : RegistryState) (w : Address) (e : Nat) :
    ((setSessionCore st w e).1).signers = st.signers := by
  unfold setSessionCore
  split <;> rfl

theorem holdsRole_setSessionCore (st : RegistryState) (sender : Address)
    (w : Address) (e : Nat) (r : Role) :
    holdsRole (setSessionCore st w e).1 sender r = holdsRole st sender r := by
  cases r <;> simp [holdsRole, setSessionCore_config, setSessionCore_signers]

theorem bypassOf_eq (st : RegistryState) (w : Address) :
    ((lookupRecord st.sessions w).map (·.bypass)).getD false = (getRecord st w).bypass := by
  unfold getRecord
  cases lookupRecord st.sessions w <;> rfl

theorem execute_setSession (st : RegistryState) (sender : Address) (now w e : Nat)
    (h : holdsRole st sender .sessionSigner = true) :
    execute st sender now (.SetSession w e) =
      .ok ((setSessionCore st w e).1, [(setSessionCore st w e).2]) := by
  simp [execute, requiredRole, h, applyMutation]

theorem finalState_setSession (st : RegistryState) (sender : Address) (now w e : Nat)
    (h : holdsRole st sender .sessionSigner = true) :
    finalState st sender now (.SetSession w e) = (setSessionCore st w e).1 := by
  unfold finalState
  rw [execute_setSession st sender now w e h]

theorem applyBatch_fst_foldl (sender : Address) (now : Nat) :
    ∀ (l : List (Address × Nat)) (st : RegistryState),
      holdsRole st sender .sessionSigner = true →
      (applyBatch st l).1 =
        List.foldl (fun s p => finalState s sender now (.SetSession p.1 p.2)) st l := by
  intro l
  induction l with
  | nil => intro st _; rfl
  | cons p rest ih =>
    intro st h
    have h' : holdsRole (setSessionCore st p.1 p.2).1 sender .sessionSigner = true := by
      rw [holdsRole_setSessionCore]
      exact h
    simp only [applyBatch, List.foldl_cons]
    rw [ih ((setSessionCore st p.1 p.2).1) h']
    rw [finalState_setSession st sender now p.1 p.2 h]

theorem finalState_enforceActive (st : RegistryState) (sender : Address)
    (now w : Nat) :
    finalState st sender now (.EnforceSessionActive w) = st := by
  have hexec : execute st sender now (.EnforceSessionActive w) =
      (enforceActive st w now).map (fun _ => (st, [])) := rfl
  unfold finalState
  rw [hexec]
  cases enforceActive st w now <;> simp [Except.map]

theorem finalState_enforcePresent (st : RegistryState) (sender : Address)
    (now w : Nat) :
    finalState st sender now (.EnforceSessionPresent w) = st := by
  have hexec : execute st sender now (.EnforceSessionPresent w) =
      (enforcePresent st w).map (fun _ => (st, [])) := rfl
  unfold finalState
  rw [hexec]
  cases enforcePresent st w <;> simp [Except.map]

theorem resolveKeys_revoke (p : ParsedArgs) (fileKeys : Option GeneratedKeys) :
    (resolveKeys p fileKeys).revoke = p.revoke := by
  unfold resolveKeys
  by_cases h : p.managerKey = "" ∨ p.signerAddress = ""
  · simp only [h, if_pos]
    cases fileKeys <;> rfl
  · simp [h]

/-! ## Claims -/

/-- C1: for every prior registry state and wallet, an authorized
`SetSession(wallet, 0)` deletes the wallet's record (both `expiry_ts` and
`bypass` cleared, the lookup afterwards finds nothing), emits exactly
`SessionSet { wallet, expiry_ts := 0 }`, and afterwards the wallet is
neither present nor active at any time under any configured offset. -/
theorem setSession_zero_deletes (st : RegistryState) (sender : Address)
    (now w : Nat) (h : holdsRole st sender .sessionSigner = true) :
    execute st sender now (.SetSession w 0) =
      .ok ({ st with sessions := eraseRecord w st.sessions }, [.SessionSet w 0]) ∧
    lookupRecord (eraseRecord w st.sessions) w = none ∧
    is_session_present { st with sessions := eraseRecord w st.sessions } w = false ∧
    ∀ now2, is_session_active { st with sessions := eraseRecord w st.sessions } w now2 = false := by
  refine ⟨?_, lookup_eraseRecord w st.sessions, ?_, ?_⟩
  · rw [execute_setSession st sender now w 0 h]
    simp [setSessionCore]
  · simp [is_session_present, getRecord, lookup_eraseRecord]
  · intro now2
    simp [is_session_active, getRecord, lookup_eraseRecord]

/-- Witness for C1 at a concrete state with an existing record for wallet 3. -/
theorem setSession_zero_deletes_witness :
    execute sampleState 12 0 (.SetSession 3 0) =
      .ok ({ sampleState with sessions := eraseRecord 3 sampleState.sessions },
        [.SessionSet 3 0]) ∧
    is_session_present { sampleState with sessions := eraseRecord 3 sampleState.sessions } 3 = false :=
  ⟨(setSession_zero_deletes sampleState 12 0 3 (by decide)).1,
   (setSession_zero_deletes sampleState 12 0 3 (by decide)).2.2.1⟩

/-- C2 counterexample: the literal §4.2 formula `bypass OR
satAdd expiry_ts expiry_offset > now` disagrees with the modelled active
predicate on a wallet with no record when `expiry_offset > now` — the
formula would call the absent session active. -/
theorem active_literal_formula_refuted :
    is_session_active cexState 7 0 ≠
      activeFormulaLiteral (getRecord cexState 7) cexState.config.expiry_offset 0 := by
  decide

/-- C2 (amended): the active predicate equals `bypass == true OR
(expiry_ts != 0 AND satAdd expiry_ts expiry_offset > now)`; the addition is
saturating — it clamps to `U64MAX` instead of overflowing, never drops below
`min a U64MAX` (no wrap-around to a small value), never surfaces an error —
so a session with the largest representable expiry is still active at every
representable time. -/
theorem active_predicate_saturating :
    (∀ st w now, is_session_active st w now =
      ((getRecord st w).bypass ||
        ((getRecord st w).expiry_ts != 0 &&
          decide (satAdd (getRecord st w).expiry_ts st.config.expiry_offset > now)))) ∧
    (∀ a b, satAdd a b = if a + b ≤ U64MAX then a + b else U64MAX) ∧
    (∀ a b, min a U64MAX ≤ satAdd a b) ∧
    (∀ st w now, (getRecord st w).expiry_ts = U64MAX → now < U64MAX →
      is_session_active st w now = true) := by
  refine ⟨fun st w now => rfl, fun a b => ?_, fun a b => ?_, fun st w now h1 h2 => ?_⟩
  · rw [satAdd, Nat.min_def]
  · exact min_le_min (Nat.le_add_right a b) (le_refl _)
  · have hs : satAdd (getRecord st w).expiry_ts st.config.expiry_offset = U64MAX := by
      rw [h1]
      exact Nat.min_eq_right (Nat.le_add_right U64MAX _)
    have hz : ((getRecord st w).expiry_ts != 0) = true := by
      rw [h1]
      decide
    unfold is_session_active
    rw [hs, hz]
    simp [h2]

/-- Witness for C2's amended theorem: the wallet holding the maximal u64
expiry in `bigState` is active at time 12345. -/
theorem active_predicate_saturating_witness :
    is_session_active bigState 4 12345 = true :=
  active_predicate_saturating.2.2.2 bigState 4 12345 rfl (by decide)

/-- C3: every mutation whose required role the caller does not hold fails
with `UnauthorizedCaller` carrying that role and the operation name, and the
observable state is exactly the pre-call state (so in particular a
`SetManager` from a non-owner leaves `manager` unchanged, and no role
implicitly falls back to another). -/
theorem unauthorized_caller_atomic_failure (st : RegistryState) (sender : Address)
    (now : Nat) (msg : CallMessage) (role : Role)
    (h1 : requiredRole msg = some role) (h2 : holdsRole st sender role = false) :
    execute st sender now msg = .error (.UnauthorizedCaller role (opName msg)) ∧
    finalState st sender now msg = st := by
  have hx : execute st sender now msg = .error (.UnauthorizedCaller role (opName msg)) := by
    unfold execute
    rw [h1]
    simp [h2]
  exact ⟨hx, by simp [finalState, hx]⟩

/-- Witness for C3, the spec's own example: owner `10`, manager `11`,
caller `12` calls `SetManager 13` and fails; the state is untouched. -/
theorem unauthorized_caller_atomic_failure_witness :
    execute sampleState 12 0 (.SetManager 13) =
      .error (.UnauthorizedCaller .owner "SetManager") ∧
    finalState sampleState 12 0 (.SetManager 13) = sampleState :=
  unauthorized_caller_atomic_failure sampleState 12 0 (.SetManager 13) .owner rfl (by decide)

/-- C4: an authorized `SetSessionBatch` whose two sequences differ in length
fails with `MismatchedBatchLength` and the observable state is exactly the
pre-call state — no record and no configuration changes. -/
theorem batch_length_mismatch_atomic (st : RegistryState) (sender : Address)
    (now : Nat) (ws : List Address) (es : List Nat)
    (h1 : holdsRole st sender .sessionSigner = true)
    (h2 : ws.length ≠ es.length) :
    execute st sender now (.SetSessionBatch ws es) = .error .MismatchedBatchLength ∧
    finalState st sender now (.SetSessionBatch ws es) = st := by
  have hx : execute st sender now (.SetSessionBatch ws es) =
      .error .MismatchedBatchLength := by
    simp [execute, requiredRole, h1, applyMutation, h2]
  exact ⟨hx, by simp [finalState, hx]⟩

/-- Witness for C4, the spec's own example `SetSessionBatch([w1, w2], [100])`. -/
theorem batch_length_mismatch_atomic_witness :
    execute sampleState 12 0 (.SetSessionBatch [1, 2] [100]) =
      .error .MismatchedBatchLength ∧
    finalState sampleState 12 0 (.SetSessionBatch [1, 2] [100]) = sampleState :=
  batch_length_mismatch_atomic sampleState 12 0 [1, 2] [100] (by decide) (by decide)

/-- C5: an authorized equal-length `SetSessionBatch` succeeds and its final
state is exactly the fold of full `SetSession` calls applied index-by-index
in order; duplicates are allowed and the later entry wins, as the concrete
`[w, w] / [100, 200]` batch shows (final `expiry_ts = 200`). -/
theorem setSessionBatch_refines_sequential :
    (∀ (st : RegistryState) (sender : Address) (now : Nat)
        (ws : List Address) (es : List Nat),
      holdsRole st sender .sessionSigner = true → ws.length = es.length →
      execute st sender now (.SetSessionBatch ws es) = .ok (applyBatch st (ws.zip es)) ∧
      (applyBatch st (ws.zip es)).1 =
        List.foldl (fun s p => finalState s sender now (.SetSession p.1 p.2)) st
          (ws.zip es)) ∧
    lookupRecord
      (finalState sampleState 12 0 (.SetSessionBatch [8, 8] [100, 200])).sessions 8 =
      some ⟨200, false⟩ := by
  constructor
  · intro st sender now ws es hauth hlen
    refine ⟨?_, applyBatch_fst_foldl sender now (ws.zip es) st hauth⟩
    simp [execute, requiredRole, hauth, applyMutation, hlen]
  · decide

/-- Witness for C5 at a concrete one-element batch. -/
theorem setSessionBatch_refines_sequential_witness :
    execute sampleState 12 0 (.SetSessionBatch [8] [100]) =
      .ok (applyBatch sampleState ([8].zip [100])) ∧
    (applyBatch sampleState ([8].zip [100])).1 =
      List.foldl (fun s p => finalState s 12 0 (.SetSession p.1 p.2)) sampleState
        ([8].zip [100]) :=
  setSessionBatch_refines_sequential.1 sampleState 12 0 [8] [100] (by decide) rfl

/-- C6: with enforcement disabled both enforcement calls succeed
unconditionally (even for a wallet with no record); with enforcement enabled
a wallet with no prior record is neither present nor active and the two
enforcement calls fail with `SessionNotPresent` / `SessionNotActive`
carrying the wallet. -/
theorem enforcement_gate_and_absent_records :
    (∀ (st : RegistryState) (sender : Address) (now w : Nat),
      st.config.enforcement_enabled = false →
      execute st sender now (.EnforceSessionActive w) = .ok (st, []) ∧
      execute st sender now (.EnforceSessionPresent w) = .ok (st, [])) ∧
    (∀ (st : RegistryState) (sender : Address) (now w : Nat),
      st.config.enforcement_enabled = true →
      lookupRecord st.sessions w = none →
      is_session_present st w = false ∧
      is_session_active st w now = false ∧
      execute st sender now (.EnforceSessionPresent w) = .error (.SessionNotPresent w) ∧
      execute st sender now (.EnforceSessionActive w) = .error (.SessionNotActive w)) := by
  constructor
  · intro st sender now w hoff
    constructor
    · have hexec : execute st sender now (.EnforceSessionActive w) =
          (enforceActive st w now).map (fun _ => (st, [])) := rfl
      rw [hexec]
      simp [enforceActive, hoff, Except.map]
    · have hexec : execute st sender now (.EnforceSessionPresent w) =
          (enforcePresent st w).map (fun _ => (st, [])) := rfl
      rw [hexec]
      simp [enforcePresent, hoff, Except.map]
  · intro st sender now w hon habs
    have hpres : is_session_present st w = false := by
      simp [is_session_present, getRecord, habs]
    have hact : is_session_active st w now = false := by
      simp [is_session_active, getRecord, habs]
    refine ⟨hpres, hact, ?_, ?_⟩
    · have hexec : execute st sender now (.EnforceSessionPresent w) =
          (enforcePresent st w).map (fun _ => (st, [])) := rfl
      rw [hexec]
      simp [enforcePresent, hon, hpres, Except.map]
    · have hexec : execute st sender now (.EnforceSessionActive w) =
          (enforceActive st w now).map (fun _ => (st, [])) := rfl
      rw [hexec]
      simp [enforceActive, hon, hact, Except.map]

/-- Witness for C6: enforcement disabled in `offState` (recordless wallet 42
passes), enabled in `sampleState` (recordless wallet 5 fails both). -/
theorem enforcement_gate_and_absent_records_witness :
    (execute offState 99 0 (.EnforceSessionActive 42) = .ok (offState, []) ∧
     execute offState 99 0 (.EnforceSessionPresent 42) = .ok (offState, [])) ∧
    (is_session_present sampleState 5 = false ∧
     is_session_active sampleState 5 7 = false ∧
     execute sampleState 99 7 (.EnforceSessionPresent 5) = .error (.SessionNotPresent 5) ∧
     execute sampleState 99 7 (.EnforceSessionActive 5) = .error (.SessionNotActive 5)) :=
  ⟨enforcement_gate_and_absent_records.1 offState 99 0 42 rfl,
   enforcement_gate_and_absent_records.2 sampleState 99 7 5 rfl rfl⟩

/-- C7: after an authorized `SetSession(w, T)` with `T ≠ 0` (a u64 value)
on a wallet whose bypass is false, the wallet is present; it is active at
every time strictly before `T` and inactive at every time at or past
`T + expiry_offset` — present and active intentionally diverge for an
expired, undeleted record. -/
theorem setSession_roundtrip_divergence (st : RegistryState) (sender : Address)
    (now w T : Nat) (hT : T ≠ 0) (hT64 : T ≤ U64MAX)
    (hb : (getRecord st w).bypass = false)
    (hauth : holdsRole st sender .sessionSigner = true) :
    is_session_present (finalState st sender now (.SetSession w T)) w = true ∧
    (∀ now2, now2 < T →
      is_session_active (finalState st sender now (.SetSession w T)) w now2 = true) ∧
    (∀ now2, T + st.config.expiry_offset ≤ now2 →
      is_session_active (finalState st sender now (.SetSession w T)) w now2 = false) := by
  have hfs : finalState st sender now (.SetSession w T) =
      { st with sessions := setRecord w ⟨T, false⟩ st.sessions } := by
    rw [finalState_setSession st sender now w T hauth]
    unfold setSessionCore
    rw [if_neg hT, bypassOf_eq, hb]
  have hrec : getRecord { st with sessions := setRecord w ⟨T, false⟩ st.sessions } w =
      ⟨T, false⟩ := by
    simp [getRecord, lookup_setRecord_self]
  refine ⟨?_, ?_, ?_⟩
  · rw [hfs]
    simp [is_session_present, hrec, hT]
  · intro now2 hlt
    have hle : now2 < satAdd T st.config.expiry_offset :=
      lt_of_lt_of_le hlt (le_min (Nat.le_add_right _ _) hT64)
    rw [hfs]
    simp only [is_session_active, hrec]
    simp [hT, hle]
  · intro now2 hge
    have hnl : ¬ (now2 < satAdd T st.config.expiry_offset) :=
      not_lt.mpr (le_trans (min_le_left _ _) hge)
    rw [hfs]
    simp only [is_session_active, hrec]
    simp [hnl]

/-- Witness for C7: `SetSession(7, 100)` in `sampleState` (offset 5) —
present afterwards, active at 50, inactive at 105. -/
theorem setSession_roundtrip_divergence_witness :
    is_session_present (finalState sampleState 12 0 (.SetSession 7 100)) 7 = true ∧
    is_session_active (finalState sampleState 12 0 (.SetSession 7 100)) 7 50 = true ∧
    is_session_active (finalState sampleState 12 0 (.SetSession 7 100)) 7 105 = false :=
  ⟨(setSession_roundtrip_divergence sampleState 12 0 7 100 (by decide) (by decide) rfl
      (by decide)).1,
   (setSession_roundtrip_divergence sampleState 12 0 7 100 (by decide) (by decide) rfl
      (by decide)).2.1 50 (by decide),
   (setSession_roundtrip_divergence sampleState 12 0 7 100 (by decide) (by decide) rfl
      (by decide)).2.2 105 (by decide)⟩

/-- C8: the two enforcement operations are read-only — for every state,
caller and time the observable state after the call is exactly the state
before it, so querying a recordless wallet never creates a record. -/
theorem enforcement_ops_are_readonly (st : RegistryState) (sender : Address)
    (now w : Nat) :
    finalState st sender now (.EnforceSessionActive w) = st ∧
    finalState st sender now (.EnforceSessionPresent w) = st :=
  ⟨finalState_enforceActive st sender now w,
   finalState_enforcePresent st sender now w⟩

/-- C9: whenever `add-signer.ts` gets past argument validation, the
`set_session_signer` payload it submits has `allowed` true exactly when the
parsed `--revoke` flag is false, and `signer` equal to the configured signer
address with a `0x` prefix ensured and then lower-cased; the payload carries
nothing besides `signer` and `allowed` — no per-application field. -/
theorem addSigner_call_message_shape (args : List String)
    (fileKeys : Option GeneratedKeys) (p : ParsedArgs)
    (hp : parseArgs args fileKeys = some p) :
    (mkCallMessage p).allowed = !(parseLoop initialArgs args).revoke ∧
    (mkCallMessage p).signer =
      jsToLower (ensure0x (resolveKeys (parseLoop initialArgs args) fileKeys).signerAddress) ∧
    ∀ msg : SetSessionSignerPayload, msg = ⟨msg.signer, msg.allowed⟩ := by
  simp only [parseArgs] at hp
  split at hp
  · exact absurd hp (by simp)
  · have hpe : p = { resolveKeys (parseLoop initialArgs args) fileKeys with
        signerAddress :=
          ensure0x (resolveKeys (parseLoop initialArgs args) fileKeys).signerAddress,
        managerKey :=
          strip0x (resolveKeys (parseLoop initialArgs args) fileKeys).managerKey } :=
      (Option.some.inj hp).symm
    subst hpe
    refine ⟨?_, rfl, fun msg => rfl⟩
    simp [mkCallMessage, resolveKeys_revoke]

/-- Witness for C9: explicit CLI arguments with `--revoke`; the payload gets
`allowed = false` and the lower-cased, prefix-ensured signer address. -/
theorem addSigner_call_message_shape_witness :
    (mkCallMessage pWit).allowed = !(parseLoop initialArgs argsWit).revoke ∧
    (mkCallMessage pWit).signer =
      jsToLower (ensure0x (resolveKeys (parseLoop initialArgs argsWit) none).signerAddress) ∧
    ∀ msg : SetSessionSignerPayload, msg = ⟨msg.signer, msg.allowed⟩ :=
  addSigner_call_message_shape argsWit none pWit (by decide)

/-- C10: `updateGenesis` sets `session_registry.owner` and `.manager`
(creating the object when absent, preserving its other keys), leaves every
other top-level genesis field unchanged, and — only when the
`bank.gas_token_config.address_and_balances` chain exists — extends the
balance table by appending `[owner, "10000000000000000"]` and
`[manager, "10000000000000000"]` exactly when the address is not already in
the pre-existing table under case-insensitive comparison; pre-existing
entries and the other bank keys are never removed or modified. -/
theorem updateGenesis_frame_and_balances (g : Genesis) (o m : String) :
    (updateGenesis g o m).session_registry =
      some { owner := some o, manager := some m,
             srExtra := (g.session_registry.getD
               { owner := none, manager := none, srExtra := [] }).srExtra } ∧
    (updateGenesis g o m).genesisExtra = g.genesisExtra ∧
    (updateGenesis g o m).bank =
      (match g.bank with
       | none => none
       | some b =>
         match b.gas_token_config with
         | none => some b
         | some gtc =>
           match gtc.address_and_balances with
           | none => some b
           | some l =>
             some { b with gas_token_config := some { gtc with
               address_and_balances := some
                 ((l ++ (if hasAddress l o then [] else [(o, initialBalance)])) ++
                   (if hasAddress l m then [] else [(m, initialBalance)])) } }) := by
  obtain ⟨sr, bank, extra⟩ := g
  refine ⟨rfl, rfl, ?_⟩
  cases bank with
  | none => rfl
  | some b =>
    obtain ⟨gtc, bext⟩ := b
    cases gtc with
    | none => rfl
    | some gt =>
      obtain ⟨ab, gext⟩ := gt
      cases ab with
      | none => rfl
      | some l =>
        by_cases ho : hasAddress l o <;> by_cases hm : hasAddress l m <;>
          simp [updateGenesis, ho, hm]
